import Mathlib

/-!
Verification of the Inbound Message Dispatch & Session Memory Engine of the
`chat-bot` repository (Go sources under `internal/adapters/primary/whatsapp`,
`internal/core/services`, and the SQLite memory database).

Each Go function relevant to the claims is shallowly embedded as an executable
Lean definition.  Maps guarded by locks are modelled as pure values threaded
through the operations; `time.Now()` is passed in as an explicit `Nat`
timestamp; external collaborators (the SQLite driver, the network client, the
webhook endpoints) are modelled as explicit result oracles.
-/

/-! ## Go string helpers

`strings.Contains(s, sub)` is substring containment; `strings.ToLower` maps
every character to lower case.  Strings are handled through their character
lists so that all operations compute. -/

/-- `strings.Contains(s, sub)`: does `sub` occur as a contiguous substring of
`s`? -/
def goContains (s sub : String) : Bool :=
  decide (sub.data <:+: s.data)

/-- `strings.ToLower(s)`: lower-case every character. -/
def goToLower (s : String) : String :=
  String.mk (s.data.map Char.toLower)

/-! ## Session Memory Store (`memory.go`)

`MemoryManager` keeps a map from `SessionKey` to the list of `Memory`
entries and a map from `SessionKey` to the rolling context window.  The Go
maps are modelled as total functions from keys to lists; a missing key is the
empty list, exactly as `append` on a `nil` slice behaves. -/

/-- `Memory` (memory.go): one stored fact. -/
structure Memory where
  content : String
  createdAt : Nat
  lastUsed : Nat
  useCount : Nat
  deriving DecidableEq, Repr

/-- `SessionKey` (memory.go): composite `(userID, conversationID)` key. -/
structure SessionKey where
  userID : String
  conversationID : String
  deriving DecidableEq, Repr

/-- `createSessionKey` (memory.go). -/
def createSessionKey (userID conversationID : String) : SessionKey :=
  ⟨userID, conversationID⟩

/-- `MemoryManager` (memory.go): the two maps, with the missing-key default
being the empty list. -/
structure MemoryManager where
  memories : SessionKey → List Memory
  context : SessionKey → List String

/-- `NewMemoryManager` (memory.go): both maps start empty. -/
def NewMemoryManager : MemoryManager :=
  ⟨fun _ => [], fun _ => []⟩

/-- `MemoryManager.AddMemory` (memory.go): builds a `Memory` with both
timestamps set to `now` and use count 0, and appends it to the slice stored
under the session key.  (No duplicate check is performed by the source.) -/
def addMemory (m : MemoryManager) (userID conversationID content : String)
    (now : Nat) : MemoryManager :=
  let key := createSessionKey userID conversationID
  { m with
    memories := fun k =>
      if k = key then m.memories key ++ [⟨content, now, now, 0⟩] else m.memories k }

/-- `MemoryManager.GetMemories` (memory.go): refreshes `LastUsed` and bumps
`UseCount` of every entry under the key (the Go code mutates the stored slice
in place) and returns the updated snapshot together with the updated store. -/
def getMemories (m : MemoryManager) (userID conversationID : String)
    (now : Nat) : List Memory × MemoryManager :=
  let key := createSessionKey userID conversationID
  let updated := (m.memories key).map
    (fun mem => { mem with lastUsed := now, useCount := mem.useCount + 1 })
  (updated, { m with memories := fun k => if k = key then updated else m.memories k })

/-- `MemoryManager.AddContextMessage` (memory.go): append the line, then if
the window exceeds 10 entries keep only the last 10 (`ctx[len-10:]`). -/
def addContextMessage (m : MemoryManager) (userID conversationID message : String) :
    MemoryManager :=
  let key := createSessionKey userID conversationID
  { m with
    context := fun k =>
      if k = key then
        let l := m.context key ++ [message]
        if l.length > 10 then l.drop (l.length - 10) else l
      else m.context k }

/-- `MemoryManager.GetContext` (memory.go): read the stored window. -/
def getContext (m : MemoryManager) (userID conversationID : String) : List String :=
  m.context (createSessionKey userID conversationID)

/-- A sequence of `AddContextMessage` calls, each a `(userID, conversationID,
message)` triple, applied in order. -/
def applyContextCalls (m : MemoryManager) (calls : List (String × String × String)) :
    MemoryManager :=
  calls.foldl (fun acc t => addContextMessage acc t.1 t.2.1 t.2.2) m

/-- The messages of `calls` addressed to the session key of `(userID,
conversationID)`, in order. -/
def messagesFor (userID conversationID : String)
    (calls : List (String × String × String)) : List String :=
  calls.filterMap
    (fun t => if createSessionKey t.1 t.2.1 = createSessionKey userID conversationID
              then some t.2.2 else none)

/-- The last `10` elements of a list: what the truncation in
`AddContextMessage` keeps. -/
def lastTen (l : List α) : List α :=
  l.drop (l.length - 10)

/-! ## Deduplication Guard (`adapter.go`, `processedMsgs sync.Map`)

`LoadOrStore(id, true)` reports whether the id was already present and records
it if not; `handleMessage` treats a message as new exactly when it was not
present. -/

/-- The mark-if-new operation of the deduplication guard: first sighting
records the id and reports `true`; a later sighting reports `false` and
leaves the set unchanged. -/
def markIfNew (seen : List String) (msgID : String) : Bool × List String :=
  if msgID ∈ seen then (false, seen) else (true, msgID :: seen)

/-- Run a sequence of mark-if-new calls, returning each call's id with its
result. -/
def runMarks (seen : List String) : List String → List (String × Bool)
  | [] => []
  | msgID :: rest =>
    let r := markIfNew seen msgID
    (msgID, r.1) :: runMarks r.2 rest

/-! ## Inbound events and the Reply-Thread Detector (`adapter_replies.go`)

A WhatsApp message carries at most one populated sub-payload; each sub-payload
optionally holds a `ContextInfo` with the quoted participant.  Proto getters
are nil-safe: a missing message yields empty text / no context info. -/

/-- `waProto.ContextInfo`: the reply metadata consulted by the detector. -/
structure ContextInfo where
  participant : Option String
  deriving DecidableEq, Repr

/-- One sub-payload (extended text, image, video, audio or document message):
its text and its optional reply metadata. -/
structure SubMessage where
  text : String
  contextInfo : Option ContextInfo
  deriving DecidableEq, Repr

/-- `waProto.Message`: the sub-payloads inspected by the adapter. -/
structure WAMessage where
  conversation : String
  extendedTextMessage : Option SubMessage
  imageMessage : Option SubMessage
  videoMessage : Option SubMessage
  audioMessage : Option SubMessage
  documentMessage : Option SubMessage
  deriving DecidableEq, Repr

/-- `events.Message`, restricted to the fields `handleMessage` reads.  The
group name stands in for the external `GetGroupInfo` lookup. -/
structure MessageEvent where
  id : String
  isGroup : Bool
  chatJID : String
  groupName : String
  senderJID : String
  message : Option WAMessage
  deriving DecidableEq, Repr

/-- `getMessageContextInfo` (adapter_replies.go): return the context info of
the first present sub-payload, in source order; `nil` if the message or every
sub-payload is absent. -/
def getMessageContextInfo (m : Option WAMessage) : Option ContextInfo :=
  match m with
  | none => none
  | some msg =>
    match msg.extendedTextMessage with
    | some ext => ext.contextInfo
    | none =>
      match msg.imageMessage with
      | some img => img.contextInfo
      | none =>
        match msg.videoMessage with
        | some vid => vid.contextInfo
        | none =>
          match msg.audioMessage with
          | some aud => aud.contextInfo
          | none =>
            match msg.documentMessage with
            | some doc => doc.contextInfo
            | none => none

/-- `isReplyToBot` (adapter_replies.go): reply metadata must be present with a
participant, and the bot's user id (`Store.ID.User`) must occur inside the
participant string (`strings.Contains(replyToParticipant, ourUserID)`). -/
def isReplyToBot (botUser : String) (m : Option WAMessage) : Bool :=
  match getMessageContextInfo m with
  | none => false
  | some ci =>
    match ci.participant with
    | none => false
    | some p => goContains p botUser

/-- The primary identity segment of a JID: the characters before the
device/colon separator (`"49123:7@s.whatsapp.net"` ↦ `"49123"`). -/
def jidPrimary (s : String) : String :=
  String.mk (s.data.takeWhile (fun ch => ch != ':'))

/-- An event carries no reply metadata in any of its sub-payload types. -/
def noReplyMetadata (m : Option WAMessage) : Bool :=
  match m with
  | none => true
  | some msg =>
    (match msg.extendedTextMessage with | some s => s.contextInfo.isNone | none => true)
    && (match msg.imageMessage with | some s => s.contextInfo.isNone | none => true)
    && (match msg.videoMessage with | some s => s.contextInfo.isNone | none => true)
    && (match msg.audioMessage with | some s => s.contextInfo.isNone | none => true)
    && (match msg.documentMessage with | some s => s.contextInfo.isNone | none => true)

/-! ## Intent Classifier / Router (`adapter.go`, `food_handler.go`,
`web_handler.go`, `image_generation.go`, ComfyUI handler)

The configuration fields read by the router, and the trigger predicates, all
using case-insensitive substring containment. -/

/-- `config.WhatsAppConfig`, restricted to the fields the router reads. -/
structure WhatsAppConfig where
  triggerWords : List String
  triggerWord : String
  allowedGroups : List String
  foodEnabled : Bool
  webEnabled : Bool
  deriving DecidableEq, Repr

/-- The wake-word check of `handleMessage`: any of the configured trigger
words, falling back to the deprecated single trigger word when it is set. -/
def isMention (cfg : WhatsAppConfig) (message : String) : Bool :=
  cfg.triggerWords.any (fun w => goContains (goToLower message) (goToLower w))
    || (cfg.triggerWord != ""
        && goContains (goToLower message) (goToLower cfg.triggerWord))

/-- `isComfyUIRequest` (ComfyUI handler): the message must contain both
`"@sasi"` and `"@img"`. -/
def isComfyUIRequest (message : String) : Bool :=
  goContains (goToLower message) "@sasi" && goContains (goToLower message) "@img"

/-- `isImageGenerationRequest` (image_generation.go): `"@sasi"` and
`"@image"`. -/
def isImageGenerationRequest (message : String) : Bool :=
  goContains (goToLower message) "@sasi" && goContains (goToLower message) "@image"

/-- `isFamilyRequest` (family handler): `"@family"`. -/
def isFamilyRequest (message : String) : Bool :=
  goContains (goToLower message) "@family"

/-- `isFoodRequest` (food_handler.go): the food service must be enabled in the
configuration, and the message must contain `"@food"`. -/
def isFoodRequest (cfg : WhatsAppConfig) (message : String) : Bool :=
  cfg.foodEnabled && goContains (goToLower message) "@food"

/-- `isWebRequest` (web_handler.go): the web service must be enabled, the
message must contain `"@web"`, and one of the configured trigger words must be
present. -/
def isWebRequest (cfg : WhatsAppConfig) (message : String) : Bool :=
  cfg.webEnabled
    && (goContains (goToLower message) "@web"
        && cfg.triggerWords.any (fun w => goContains (goToLower message) (goToLower w)))

/-- The pipeline selected for an admitted message. -/
inductive Route where
  | dropped
  | comfyUI
  | imageGeneration
  | family
  | imageAnalysis
  | food
  | webSearch
  | plainChat
  deriving DecidableEq, Repr

/-- The routing portion of `handleMessage` (adapter.go lines 255-377): the
exact chain of checks after the admit phase, first match wins. -/
def route (cfg : WhatsAppConfig) (message : String) (hasImg isReply : Bool) : Route :=
  let hasText : Bool := message != ""
  let mention : Bool := hasText && isMention cfg message
  if !mention && !isReply then .dropped
  else if hasText && isComfyUIRequest message then .comfyUI
  else if hasText && isImageGenerationRequest message then .imageGeneration
  else if hasText && isFamilyRequest message then .family
  else if hasImg && isReply then .imageAnalysis
  else if hasImg && hasText && mention then .imageAnalysis
  else if hasImg && !hasText then .dropped
  else if !hasText then .dropped
  else if hasText && isFoodRequest cfg message then .food
  else if hasText && isWebRequest cfg message then .webSearch
  else .plainChat

/-! ## Admit phase of `handleMessage` and the Conversation Registry
(`adapter.go`) -/

/-- `getMessageText` (adapter.go): the plain conversation text if set, else
the extended text, else empty. -/
def getMessageText (m : Option WAMessage) : String :=
  match m with
  | none => ""
  | some msg =>
    if msg.conversation != "" then msg.conversation
    else
      match msg.extendedTextMessage with
      | some ext => ext.text
      | none => ""

/-- `hasImage` (image_analysis.go): an image sub-payload is present. -/
def hasImage (m : Option WAMessage) : Bool :=
  match m with
  | none => false
  | some msg => msg.imageMessage.isSome

/-- `isGroupAllowed` (adapter.go): empty allow-list denies everything; a `"*"`
entry allows everything; otherwise an entry must occur inside the group JID. -/
def isGroupAllowed (cfg : WhatsAppConfig) (groupJID : String) : Bool :=
  if cfg.allowedGroups.isEmpty then false
  else if cfg.allowedGroups.any (fun g => g == "*") then true
  else cfg.allowedGroups.any (fun g => goContains groupJID g)

/-- `Conversation` (adapter.go). -/
structure Conversation where
  id : String
  groupID : String
  groupName : String
  messages : List String
  lastActivity : Nat
  deriving DecidableEq, Repr

/-- The process-wide mutable state touched by the admit phase of
`handleMessage`: the dedup guard's id set and the conversation registry. -/
structure EngineState where
  processed : List String
  conversations : List (String × Conversation)
  deriving DecidableEq, Repr

/-- `getOrCreateConversation` (adapter.go): conversation id is
`"whatsapp-" ++ groupJID`; a record is allocated on first sight. -/
def getOrCreateConversation (st : EngineState) (evt : MessageEvent) (now : Nat) :
    String × EngineState :=
  let convID := "whatsapp-" ++ evt.chatJID
  if st.conversations.any (fun p => p.1 == convID) then (convID, st)
  else
    (convID,
     { st with
       conversations :=
        st.conversations ++ [(convID, ⟨convID, evt.chatJID, evt.groupName, [], now⟩)] })

/-- The synchronous part of `handleMessage` (adapter.go lines 217-377): dedup
guard, group filter, allow-list, conversation creation, reply detection, and
routing.  Returns the updated engine state together with the selected route
(`Route.dropped` when the function returns without dispatching a pipeline). -/
def handleMessage (cfg : WhatsAppConfig) (botUser : String) (st : EngineState)
    (evt : MessageEvent) (now : Nat) : EngineState × Route :=
  let dedup : Bool × List String :=
    if evt.id != "" then markIfNew st.processed evt.id else (true, st.processed)
  if !dedup.1 then (st, .dropped)
  else
    let st1 : EngineState := { st with processed := dedup.2 }
    if !evt.isGroup then (st1, .dropped)
    else if !isGroupAllowed cfg evt.chatJID then (st1, .dropped)
    else
      let st2 := (getOrCreateConversation st1 evt now).2
      (st2, route cfg (getMessageText evt.message) (hasImage evt.message)
              (isReplyToBot botUser evt.message))

/-! ## Persistence Sync (`persistent_memory.go`, `memory_service.go`,
SQLite memory database) -/

/-- The sweep loop of `syncAllMemories` (persistent_memory.go): iterate over
the snapshot of session keys, count per-key successes and failures of
`SyncMemoryToDatabase` (whose outcome, which depends on the external
database, is the oracle `syncResult`), and report both counts. -/
def syncAllMemories (keys : List SessionKey) (syncResult : SessionKey → Bool) :
    Nat × Nat :=
  keys.foldl
    (fun counts key => if syncResult key then (counts.1 + 1, counts.2)
                       else (counts.1, counts.2 + 1))
    (0, 0)

/-- The retry loop of `MemoryService.AddMemory` (memory_service.go): up to
`fuel` attempts starting at index `i`; a failed attempt sleeps
`100*(i+1)` milliseconds before the next one.  Returns whether an attempt
succeeded together with the list of sleeps performed.  `dbAttempt` is the
external database's outcome for each attempt. -/
def addMemoryRetry (dbAttempt : Nat → Bool) : Nat → Nat → Bool × List Nat
  | 0, _ => (false, [])
  | fuel + 1, i =>
    if dbAttempt i then (true, [])
    else
      let rest := addMemoryRetry dbAttempt fuel (i + 1)
      (rest.1, 100 * (i + 1) :: rest.2)

/-- `MemoryService.AddMemory` (memory_service.go): 3 attempts, linear
backoff. -/
def memoryServiceAddMemory (dbAttempt : Nat → Bool) : Bool × List Nat :=
  addMemoryRetry dbAttempt 3 0

/-- One row of the `memories` table (SQLite memory database). -/
structure MemoryRow where
  userID : String
  conversationID : String
  content : String
  createdAt : Nat
  lastUsed : Nat
  useCount : Nat
  deriving DecidableEq, Repr

/-- Does a row match the `UNIQUE(user_id, conversation_id, content)` key? -/
def sameTriple (row : MemoryRow) (userID conversationID content : String) : Bool :=
  row.userID == userID && row.conversationID == conversationID
    && row.content == content

/-- `MemoryDatabase.AddMemory` (SQLite memory database): `INSERT OR REPLACE`
under `UNIQUE(user_id, conversation_id, content)` — any row conflicting on
the triple is deleted and the new row inserted. -/
def dbAddMemory (db : List MemoryRow) (row : MemoryRow) : List MemoryRow :=
  (db.filter
    (fun r => !(sameTriple r row.userID row.conversationID row.content))) ++ [row]

/-! ## Concrete fixtures used by witnesses and counterexamples -/

/-- A configuration with wake word `"@sasi"`, all groups allowed, food and web
services disabled. -/
def cfgBase : WhatsAppConfig :=
  ⟨["@sasi"], "", ["*"], false, false⟩

/-- `cfgBase` with the food service enabled. -/
def cfgFood : WhatsAppConfig :=
  ⟨["@sasi"], "", ["*"], true, false⟩

/-- Reply metadata quoting the bot (user `"49123"`, device suffix `":7"`). -/
def ciBot : ContextInfo :=
  ⟨some "49123:7@s.whatsapp.net"⟩

/-- An extended-text message replying to the bot. -/
def msgReply : WAMessage :=
  ⟨"", some ⟨"ok", some ciBot⟩, none, none, none, none⟩

/-- A plain text message with no reply metadata anywhere. -/
def msgPlain : WAMessage :=
  ⟨"hello", none, none, none, none, none⟩

/-- A group text event with no wake word and no reply metadata. -/
def evtHello : MessageEvent :=
  ⟨"m1", true, "g1@g.us", "Group One", "u1@s.whatsapp.net", some msgPlain⟩

/-! # Theorems -/

/-! ## Shared helper lemmas -/

theorem goContains_data_ne_nil {s sub : String} (hsub : sub.data ≠ [])
    (h : goContains s sub = true) : s.data ≠ [] := by
  intro hs
  have hinf : sub.data <:+: s.data := of_decide_eq_true h
  rw [hs] at hinf
  exact hsub (List.infix_nil.mp hinf)

theorem goToLower_data (s : String) :
    (goToLower s).data = s.data.map Char.toLower := rfl

/-! ## C9: durable-storage writes are idempotent upserts -/

theorem dbAddMemory_countP_one (db : List MemoryRow) (row : MemoryRow) :
    (dbAddMemory db row).countP
      (fun r => sameTriple r row.userID row.conversationID row.content) = 1 := by
  unfold dbAddMemory
  rw [List.countP_append]
  have h0 : (db.filter
      (fun r => !(sameTriple r row.userID row.conversationID row.content))).countP
      (fun r => sameTriple r row.userID row.conversationID row.content) = 0 := by
    rw [List.countP_eq_zero]
    intro a ha
    have := List.of_mem_filter ha
    simp only [Bool.not_eq_true'] at this
    simp [this]
  have h1 : List.countP
      (fun r => sameTriple r row.userID row.conversationID row.content) [row] = 1 := by
    simp [List.countP_cons, sameTriple]
  rw [h0, h1]

/-- C9: durable-storage memory writes are idempotent upserts keyed by
(user, conversation, content): writing the same triple any positive number of
times leaves exactly one stored row for that triple, never a duplicate. -/
theorem dbAddMemory_upsert_idempotent (db : List MemoryRow) (row : MemoryRow) (n : Nat) :
    (((fun d => dbAddMemory d row)^[n + 1]) db).countP
      (fun r => sameTriple r row.userID row.conversationID row.content) = 1 := by
  rw [Function.iterate_succ_apply']
  exact dbAddMemory_countP_one _ row

/-! ## C8: interactive add retries the durable write up to 3 times -/

/-- C8: `MemoryService.AddMemory` attempts the durable write up to 3 times
with linearly increasing backoff (100ms, 200ms, 300ms): it returns success as
soon as one attempt succeeds, and surfaces an error only after all 3 attempts
have failed. -/
theorem memoryServiceAddMemory_spec (dbAttempt : Nat → Bool) :
    memoryServiceAddMemory dbAttempt =
      if dbAttempt 0 then (true, [])
      else if dbAttempt 1 then (true, [100])
      else if dbAttempt 2 then (true, [100, 200])
      else (false, [100, 200, 300]) := by
  show addMemoryRetry dbAttempt 3 0 = _
  cases h0 : dbAttempt 0 <;> cases h1 : dbAttempt 1 <;> cases h2 : dbAttempt 2 <;>
    simp [addMemoryRetry, h0, h1, h2]

/-! ## C7: the periodic sweep attempts every key and reports counts -/

theorem syncAllMemories_foldl (keys : List SessionKey) (syncResult : SessionKey → Bool)
    (a b : Nat) :
    keys.foldl
      (fun counts key => if syncResult key then (counts.1 + 1, counts.2)
                         else (counts.1, counts.2 + 1))
      (a, b)
    = (a + keys.countP (fun k => syncResult k),
       b + keys.countP (fun k => !(syncResult k))) := by
  induction keys generalizing a b with
  | nil => simp
  | cons k rest ih =>
    cases hk : syncResult k <;>
      simp [List.countP_cons, hk, ih, Nat.add_assoc, Nat.add_comm, Nat.add_left_comm]

/-- C7: the persistence sweep over any snapshot of session keys attempts every
key (succeeding and failing keys together account for the whole snapshot) and
reports a success count equal to the number of keys whose sync succeeded and a
failure count equal to the number whose sync failed. -/
theorem syncAllMemories_counts (keys : List SessionKey) (syncResult : SessionKey → Bool) :
    (syncAllMemories keys syncResult).1 = keys.countP (fun k => syncResult k)
  ∧ (syncAllMemories keys syncResult).2 = keys.countP (fun k => !(syncResult k))
  ∧ (syncAllMemories keys syncResult).1 + (syncAllMemories keys syncResult).2
      = keys.length := by
  unfold syncAllMemories
  rw [syncAllMemories_foldl]
  refine ⟨by simp, by simp, ?_⟩
  simp only [Nat.zero_add]
  induction keys with
  | nil => simp
  | cons k rest ih =>
    cases hk : syncResult k <;> simp [List.countP_cons, hk] <;> omega

/-! ## C4: mark-if-new returns true exactly once per id -/

theorem runMarks_countP (ids : List String) (seen : List String) (x : String) :
    ((runMarks seen ids).countP (fun p => p.1 == x && p.2)) =
      if x ∈ ids ∧ x ∉ seen then 1 else 0 := by
  induction ids generalizing seen with
  | nil => simp [runMarks]
  | cons m rest ih =>
    unfold runMarks markIfNew
    by_cases hm : m ∈ seen
    · rw [if_pos hm]
      simp only [List.countP_cons, ih seen]
      by_cases hx : x = m
      · subst hx
        simp [hm]
      · simp [List.mem_cons, hx]
    · rw [if_neg hm]
      simp only [List.countP_cons, ih (m :: seen)]
      by_cases hx : x = m
      · subst hx
        simp [hm, List.mem_cons]
      · simp [List.mem_cons, hx, Ne.symm hx]

/-- C4: starting from an empty guard, a sequence of mark-if-new calls returns
true exactly once for each id that occurs in the sequence (and never for an
id that does not); once an id is already recorded, every further call with it
returns false. -/
theorem markIfNew_true_exactly_once (ids : List String) (x : String) :
    ((runMarks [] ids).countP (fun p => p.1 == x && p.2)
        = if x ∈ ids then 1 else 0)
  ∧ (∀ seen, x ∈ seen →
      (runMarks seen ids).countP (fun p => p.1 == x && p.2) = 0) := by
  constructor
  · rw [runMarks_countP]
    simp
  · intro seen hx
    rw [runMarks_countP]
    simp [hx]

/-- C4 witness: over the call sequence `["m1","m2","m1"]` the id `"m1"` gets
`true` exactly once; with `"m1"` pre-recorded it never gets `true`. -/
theorem markIfNew_true_exactly_once_witness :
    ((runMarks [] ["m1", "m2", "m1"]).countP (fun p => p.1 == "m1" && p.2) = 1)
  ∧ ((runMarks ["m1"] ["m1", "m1"]).countP (fun p => p.1 == "m1" && p.2) = 0) :=
  ⟨((markIfNew_true_exactly_once ["m1", "m2", "m1"] "m1").1).trans (by decide),
   (markIfNew_true_exactly_once ["m1", "m1"] "m1").2 ["m1"] (by decide)⟩

/-! ## C1: `AddMemory` appends rather than upserting -/

/-- C1 counterexample: from an empty store, calling `AddMemory` twice with the
same key and content `"x"` does NOT leave exactly one entry with content
`"x"` — the claim fails on the code (the count is 2). -/
theorem addMemory_upsert_counterexample :
    ¬ (((addMemory (addMemory NewMemoryManager "u1" "c1" "x" 0) "u1" "c1" "x" 1).memories
        (createSessionKey "u1" "c1")).countP (fun mem => mem.content == "x") = 1) := by
  decide

/-- C1 amended: `MemoryManager.AddMemory` appends unconditionally, so calling
`AddMemory(k, x)` twice results in exactly TWO memory entries with content
`x` for `k` (given that no entry with content `x` existed before), not one:
the second call is a new row, not an upsert. -/
theorem addMemory_twice_appends (m : MemoryManager) (u c x : String) (t₁ t₂ : Nat)
    (h : (m.memories (createSessionKey u c)).countP (fun mem => mem.content == x) = 0) :
    ((addMemory (addMemory m u c x t₁) u c x t₂).memories
        (createSessionKey u c)).countP (fun mem => mem.content == x) = 2 := by
  simp [addMemory, List.countP_append, List.countP_cons, h]

/-- C1 witness for the amended claim, at the empty store. -/
theorem addMemory_twice_appends_witness :
    ((NewMemoryManager.memories (createSessionKey "u1" "c1")).countP
        (fun mem => mem.content == "x") = 0)
  ∧ (((addMemory (addMemory NewMemoryManager "u1" "c1" "x" 0) "u1" "c1" "x" 1).memories
        (createSessionKey "u1" "c1")).countP (fun mem => mem.content == "x") = 2) :=
  ⟨by decide, addMemory_twice_appends NewMemoryManager "u1" "c1" "x" 0 1 (by decide)⟩

/-! ## C5: the context window is a 10-entry FIFO -/

theorem lastTen_length (l : List α) : (lastTen l).length ≤ 10 := by
  simp only [lastTen, List.length_drop]
  omega

theorem lastTen_append_lastTen (l₁ l₂ : List α) :
    lastTen (lastTen l₁ ++ l₂) = lastTen (l₁ ++ l₂) := by
  unfold lastTen
  have h1 : l₁.drop (l₁.length - 10) ++ l₂ = (l₁ ++ l₂).drop (l₁.length - 10) := by
    rw [List.drop_append_eq_append_drop]
    have h2 : l₁.length - 10 - l₁.length = 0 := by omega
    rw [h2, List.drop_zero]
  rw [h1, List.drop_drop]
  congr 1
  simp only [List.length_drop, List.length_append]
  omega

theorem lastTen_of_length_le (l : List α) (h : l.length ≤ 10) : lastTen l = l := by
  unfold lastTen
  have h0 : l.length - 10 = 0 := by omega
  rw [h0, List.drop_zero]

theorem addContextMessage_context (m : MemoryManager) (u c msg : String)
    (k : SessionKey) :
    (addContextMessage m u c msg).context k =
      if k = createSessionKey u c then
        (let l := m.context (createSessionKey u c) ++ [msg];
         if l.length > 10 then l.drop (l.length - 10) else l)
      else m.context k := rfl

theorem addContextMessage_step (l : List String) (msg : String) (h : l.length ≤ 10) :
    (let l' := l ++ [msg];
     if l'.length > 10 then l'.drop (l'.length - 10) else l') = lastTen (l ++ [msg]) := by
  simp only [lastTen]
  split
  · rfl
  · next hle =>
    have h0 : (l ++ [msg]).length - 10 = 0 := by
      simp only [List.length_append, List.length_cons, List.length_nil] at hle ⊢
      omega
    rw [h0, List.drop_zero]

theorem applyContextCalls_getContext (calls : List (String × String × String))
    (m : MemoryManager) (u c : String)
    (h : (m.context (createSessionKey u c)).length ≤ 10) :
    getContext (applyContextCalls m calls) u c =
      lastTen (m.context (createSessionKey u c) ++ messagesFor u c calls) := by
  induction calls generalizing m with
  | nil =>
    simp only [applyContextCalls, List.foldl_nil, messagesFor, List.filterMap_nil,
      List.append_nil, getContext]
    exact (lastTen_of_length_le _ h).symm
  | cons t rest ih =>
    have hunfold : applyContextCalls m (t :: rest)
        = applyContextCalls (addContextMessage m t.1 t.2.1 t.2.2) rest := rfl
    rw [hunfold]
    by_cases hk : createSessionKey t.1 t.2.1 = createSessionKey u c
    · have hstep : (addContextMessage m t.1 t.2.1 t.2.2).context (createSessionKey u c)
          = lastTen (m.context (createSessionKey u c) ++ [t.2.2]) := by
        rw [addContextMessage_context, if_pos hk.symm, hk]
        exact addContextMessage_step _ _ h
      have hlen : ((addContextMessage m t.1 t.2.1 t.2.2).context
          (createSessionKey u c)).length ≤ 10 := by
        rw [hstep]
        exact lastTen_length _
      rw [ih _ hlen, hstep, lastTen_append_lastTen]
      have hmsgs : messagesFor u c (t :: rest) = t.2.2 :: messagesFor u c rest := by
        simp only [messagesFor, List.filterMap_cons, if_pos hk]
      rw [hmsgs, List.append_assoc]
      rfl
    · have hsame : (addContextMessage m t.1 t.2.1 t.2.2).context (createSessionKey u c)
          = m.context (createSessionKey u c) := by
        rw [addContextMessage_context, if_neg (fun he => hk he.symm)]
      have hlen : ((addContextMessage m t.1 t.2.1 t.2.2).context
          (createSessionKey u c)).length ≤ 10 := by
        rw [hsame]; exact h
      rw [ih _ hlen, hsame]
      have hmsgs : messagesFor u c (t :: rest) = messagesFor u c rest := by
        simp only [messagesFor, List.filterMap_cons, if_neg hk]
      rw [hmsgs]

/-- C5: for every sequence of `AddContextMessage` calls applied to a fresh
store, `GetContext` returns exactly the most recently added lines for that
session key in insertion order (the last 10, oldest first after truncation),
and never more than 10 entries. -/
theorem getContext_bounded_fifo (calls : List (String × String × String)) (u c : String) :
    getContext (applyContextCalls NewMemoryManager calls) u c
        = lastTen (messagesFor u c calls)
  ∧ (getContext (applyContextCalls NewMemoryManager calls) u c).length ≤ 10 := by
  have h := applyContextCalls_getContext calls NewMemoryManager u c
    (by simp [NewMemoryManager])
  rw [show NewMemoryManager.context (createSessionKey u c) = [] from rfl,
    List.nil_append] at h
  exact ⟨h, by rw [h]; exact lastTen_length _⟩

/-! ## C6: the reply-thread detector -/

theorem noReplyMetadata_contextInfo (m : Option WAMessage)
    (h : noReplyMetadata m = true) : getMessageContextInfo m = none := by
  cases m with
  | none => rfl
  | some msg =>
    unfold noReplyMetadata at h
    unfold getMessageContextInfo
    cases hext : msg.extendedTextMessage <;> cases himg : msg.imageMessage <;>
      cases hvid : msg.videoMessage <;> cases haud : msg.audioMessage <;>
        cases hdoc : msg.documentMessage <;>
          simp_all [Option.isNone_iff_eq_none]

/-- C6: the reply-thread detector returns true whenever reply metadata with a
quoted participant is present and the participant's primary identity segment
(before the device/colon separator) equals the bot's own user identity; and it
returns false for every event that carries no reply metadata in any of its
sub-payload types. -/
theorem isReplyToBot_spec (botUser : String) (m : Option WAMessage) :
    (∀ ci p, getMessageContextInfo m = some ci → ci.participant = some p →
        jidPrimary p = botUser → isReplyToBot botUser m = true)
  ∧ (noReplyMetadata m = true → isReplyToBot botUser m = false) := by
  constructor
  · intro ci p hci hp hmatch
    unfold isReplyToBot
    rw [hci]
    simp only [hp]
    have hdata : botUser.data = p.data.takeWhile (fun ch => ch != ':') := by
      rw [← hmatch]
      rfl
    have hpre := List.takeWhile_prefix (l := p.data) (fun ch => ch != ':')
    rw [← hdata] at hpre
    exact decide_eq_true (List.IsPrefix.isInfix hpre)
  · intro h
    unfold isReplyToBot
    rw [noReplyMetadata_contextInfo m h]

/-- C6 witness: a reply quoting participant `"49123:7@s.whatsapp.net"` with
bot user `"49123"` is detected; a plain message with no reply metadata is
not. -/
theorem isReplyToBot_spec_witness :
    isReplyToBot "49123" (some msgReply) = true
  ∧ isReplyToBot "49123" (some msgPlain) = false :=
  ⟨(isReplyToBot_spec "49123" (some msgReply)).1 ciBot "49123:7@s.whatsapp.net"
      rfl rfl (by decide),
   (isReplyToBot_spec "49123" (some msgPlain)).2 (by decide)⟩

/-! ## C2: food routing requires the enabled flag -/

/-- C2 counterexample: with the food service disabled in configuration, the
input `"@sasi @food order biryani"` (wake word and food phrase present, no
image-generation/family phrase, no image) routes to plain chat, not to the
food pipeline — the claim as stated fails on the code. -/
theorem route_food_counterexample :
    route cfgBase "@sasi @food order biryani" false false = Route.plainChat
  ∧ route cfgBase "@sasi @food order biryani" false false ≠ Route.food := by
  constructor <;> decide

theorem goContains_food_text_ne_empty {message : String}
    (h : goContains (goToLower message) "@food" = true) : message ≠ "" := by
  intro he
  subst he
  exact absurd h (by decide)

/-- C2 amended: for every inbound text carrying a configured plain wake word
and the food wake phrase, with no ComfyUI/image-generation/family phrase
present and no image attached, AND the food service enabled in configuration,
the router selects the food pipeline rather than plain chat. -/
theorem route_food_priority (cfg : WhatsAppConfig) (message : String) (isReply : Bool)
    (hfood : isFoodRequest cfg message = true)
    (hmention : isMention cfg message = true)
    (hcomfy : isComfyUIRequest message = false)
    (himggen : isImageGenerationRequest message = false)
    (hfam : isFamilyRequest message = false) :
    route cfg message false isReply = Route.food := by
  have htext : message ≠ "" := by
    refine goContains_food_text_ne_empty (h := ?_)
    have := hfood
    unfold isFoodRequest at this
    exact (Bool.and_eq_true _ _ |>.mp this).2
  have hbne : (message != "") = true := bne_iff_ne.mpr htext
  unfold route
  simp [hbne, hmention, hcomfy, himggen, hfam, hfood]

/-- C2 witness for the amended claim: with the food service enabled,
`"@sasi @food order biryani"` routes to the food pipeline. -/
theorem route_food_priority_witness :
    route cfgFood "@sasi @food order biryani" false false = Route.food :=
  route_food_priority cfgFood "@sasi @food order biryani" false
    (by decide) (by decide) (by decide) (by decide) (by decide)

/-! ## C10: the food predicate is gated by the enabled flag -/

/-- C10: when the food service's enabled flag is false, the food-request
predicate returns false regardless of message content, the router never
selects the food pipeline, and a text message carrying the food phrase and a
wake word (with no higher-priority phrase and no image) falls through to the
web-search check and then plain chat. -/
theorem isFoodRequest_disabled_gate (cfg : WhatsAppConfig) (message : String)
    (hdis : cfg.foodEnabled = false) :
    isFoodRequest cfg message = false
  ∧ (∀ hasImg isReply, route cfg message hasImg isReply ≠ Route.food)
  ∧ (goContains (goToLower message) "@food" = true →
      isMention cfg message = true →
      isComfyUIRequest message = false →
      isImageGenerationRequest message = false →
      isFamilyRequest message = false →
      route cfg message false false =
        if isWebRequest cfg message then Route.webSearch else Route.plainChat) := by
  have hf : isFoodRequest cfg message = false := by
    unfold isFoodRequest
    rw [hdis]
    rfl
  refine ⟨hf, ?_, ?_⟩
  · intro hasImg isReply
    unfold route
    simp only [hf, Bool.and_false]
    split
    · simp
    split
    · simp
    split
    · simp
    split
    · simp
    split
    · simp
    split
    · simp
    split
    · simp
    split
    · simp
    split
    · simp_all
    split
    · simp
    · simp
  · intro hkw hmention hcomfy himggen hfam
    have htext : message ≠ "" := goContains_food_text_ne_empty hkw
    have hbne : (message != "") = true := bne_iff_ne.mpr htext
    unfold route
    simp only [hbne, hmention, hcomfy, himggen, hfam, hf, Bool.and_true, Bool.and_false,
      Bool.true_and, Bool.false_and, Bool.not_true, Bool.not_false]
    cases hw : isWebRequest cfg message <;> simp [hw]

/-- C10 witness: with the food service disabled, the predicate rejects
`"@sasi @food order biryani"` and the router sends it to plain chat. -/
theorem isFoodRequest_disabled_gate_witness :
    isFoodRequest cfgBase "@sasi @food order biryani" = false
  ∧ route cfgBase "@sasi @food order biryani" false false = Route.plainChat := by
  constructor
  · exact (isFoodRequest_disabled_gate cfgBase "@sasi @food order biryani" rfl).1
  · have h := (isFoodRequest_disabled_gate cfgBase "@sasi @food order biryani" rfl).2.2
      (by decide) (by decide) (by decide) (by decide) (by decide)
    rw [h]
    decide

/-! ## C3: a filtered-out message is dropped, but not side-effect-free -/

/-- C3 counterexample: a fresh group message with no wake word and no reply
metadata is dropped without a response, yet processing it DOES change engine
state — the message id is recorded in the dedup guard and a conversation
record is created — so the no-side-effect part of the claim fails on the
code. -/
theorem handleMessage_drop_side_effects :
    (handleMessage cfgBase "49123" ⟨[], []⟩ evtHello 0).2 = Route.dropped
  ∧ (handleMessage cfgBase "49123" ⟨[], []⟩ evtHello 0).1 ≠ (⟨[], []⟩ : EngineState) := by
  constructor <;> decide

/-- C3 amended: an inbound event that carries no recognized wake word and is
not a reply to the bot (and passes the duplicate/group/allow-list filters) is
dropped with no response, but its processing does mutate engine state: the
message id is recorded in the deduplication guard and a conversation record
is created if absent — and nothing else changes. -/
theorem handleMessage_drop_spec (cfg : WhatsAppConfig) (botUser : String)
    (st : EngineState) (evt : MessageEvent) (now : Nat)
    (hnew : evt.id ∉ st.processed)
    (hgrp : evt.isGroup = true)
    (hallow : isGroupAllowed cfg evt.chatJID = true)
    (hmention : isMention cfg (getMessageText evt.message) = false)
    (hreply : isReplyToBot botUser evt.message = false) :
    handleMessage cfg botUser st evt now =
      ((getOrCreateConversation
          { st with processed :=
              if evt.id = "" then st.processed else evt.id :: st.processed }
          evt now).2,
       Route.dropped) := by
  have hroute : route cfg (getMessageText evt.message) (hasImage evt.message)
      (isReplyToBot botUser evt.message) = Route.dropped := by
    unfold route
    simp [hmention, hreply]
  unfold handleMessage
  by_cases hid : evt.id = ""
  · have hbne : (evt.id != "") = false := by
      simp [hid]
    simp [hbne, hgrp, hallow, hroute, hid]
  · have hbne : (evt.id != "") = true := bne_iff_ne.mpr hid
    simp [hbne, markIfNew, hnew, hgrp, hallow, hroute, hid]

/-- C3 witness for the amended claim: the concrete dropped event leaves
exactly the dedup mark and the new conversation record behind. -/
theorem handleMessage_drop_spec_witness :
    handleMessage cfgBase "49123" ⟨[], []⟩ evtHello 0 =
      (⟨["m1"], [("whatsapp-g1@g.us",
          ⟨"whatsapp-g1@g.us", "g1@g.us", "Group One", [], 0⟩)]⟩, Route.dropped) := by
  have h := handleMessage_drop_spec cfgBase "49123" ⟨[], []⟩ evtHello 0
    (by decide) rfl (by decide) (by decide) rfl
  rw [h]
  decide
